import Mathlib

/-!
# Trusty "sand" platform bootstrap (platform.c)

A shallow embedding of `platform.c`: hypervisor detection, hypercall backend
binding, the fast-syscall CPU gate, the secure-info descriptor lifecycle, the
kernel section mapper and the heap arena computation, with theorems about each.

Machine words are natural numbers; 64-bit arithmetic is written with an
explicit `% 2^64`.  Functions and constants that `platform.c` uses but that are
declared in headers outside this source tree are either parameters of the
embedding or carry a doc comment saying what they were modelled from.
-/

namespace TrustySand

/-! ## Hypervisor detection (`detect_vmm`) -/

/-- Enumerator `VMM_ID_EVMM` of `vmm_id_t`. -/
def VMM_ID_EVMM : Nat := 0

/-- Enumerator `VMM_ID_ACRN` of `vmm_id_t`. -/
def VMM_ID_ACRN : Nat := 1

/-- Enumerator `VMM_SUPPORTED_NUM` of `vmm_id_t`. -/
def VMM_SUPPORTED_NUM : Nat := 2

/-- The characters of the string literal `vmm_signature[i]`. -/
def vmm_signature_chars (i : Nat) : List Char :=
  if i = VMM_ID_EVMM then "EVMMEVMMEVMM".toList
  else if i = VMM_ID_ACRN then "ACRNACRNACRN".toList
  else []

/-- The object `vmm_signature[i]` as memory: byte at offset `k` of the C string
(the characters, then the terminating NUL). -/
def vmm_signature (i : Nat) (k : Nat) : Nat :=
  ((vmm_signature_chars i).map Char.toNat).getD k 0

/-- The object `uint32_t signature[3]` as memory on x86 (little-endian): byte
at offset `k` after CPUID stored EBX, ECX, EDX into `signature[0..2]`. -/
def signature_mem (ebx ecx edx : Nat) (k : Nat) : Nat :=
  let w := if k / 4 = 0 then ebx % 2 ^ 32
           else if k / 4 = 1 then ecx % 2 ^ 32
           else if k / 4 = 2 then edx % 2 ^ 32
           else 0
  (w >>> (8 * (k % 4))) &&& 0xFF

/-- C `memcmp(s1, s2, n)` on two objects given as byte-at-offset functions,
starting at offset `k`: the difference of the first pair of differing bytes,
or `0` when the `n` bytes agree. -/
def memcmp_from (s1 s2 : Nat → Nat) (k : Nat) : Nat → Int
  | 0 => 0
  | n + 1 =>
    if s1 k = s2 k then memcmp_from s1 s2 (k + 1) n
    else (s1 k : Int) - (s2 k : Int)

/-- C `memcmp(s1, s2, n)`. -/
def memcmp (s1 s2 : Nat → Nat) (n : Nat) : Int :=
  memcmp_from s1 s2 0 n

/-- The loop `for (i = 0; i < VMM_SUPPORTED_NUM; i++)` of `detect_vmm`, entered
at index `i` with `fuel` iterations left. -/
def detect_vmm_loop (sig : Nat → Nat) (i : Nat) : Nat → Int
  | 0 => -1
  | fuel + 1 =>
    if memcmp (vmm_signature i) sig 12 = 0 then (i : Int)
    else detect_vmm_loop sig (i + 1) fuel

/-- The function `detect_vmm`, given the EBX, ECX, EDX that CPUID leaf
`0x40000000` returns. -/
def detect_vmm (ebx ecx edx : Nat) : Int :=
  detect_vmm_loop (signature_mem ebx ecx edx) 0 VMM_SUPPORTED_NUM

/-- The twelve signature bytes in memory order. -/
def signature_bytes (ebx ecx edx : Nat) : List Nat :=
  (List.range 12).map (signature_mem ebx ecx edx)

/-- The twelve bytes of an ASCII string. -/
def ascii (s : String) : List Nat :=
  s.toList.map Char.toNat

/-- Packs four bytes into the little-endian 32-bit register value. -/
def le32 (b0 b1 b2 b3 : Nat) : Nat :=
  b0 + 256 * b1 + 65536 * b2 + 16777216 * b3

/-! ## Fast-syscall gate (`is_sysenter_support`) -/

/-- Macro `GET_STEPPING_ID(val)`. -/
def GET_STEPPING_ID (val : Nat) : Nat := val &&& 0xF

/-- Macro `GET_MODEL(val)`. -/
def GET_MODEL (val : Nat) : Nat := (val >>> 4) &&& 0xF

/-- Macro `GET_FAMILY_ID(val)`. -/
def GET_FAMILY_ID (val : Nat) : Nat := (val >>> 8) &&& 0xF

/-- Macro `SEP_BIT`. -/
def SEP_BIT : Nat := 11

/-- Modelled from the spec: the macro `BITMAP_GET` is used by `is_sep_support`
but defined in a header outside this source tree.  The spec says the gate
"extract[s] a single capability bit (call it SEP)", so `BITMAP_GET(val, bit)`
is the word `val` masked with bit number `bit`. -/
def BITMAP_GET (val bit : Nat) : Nat := val &&& (1 <<< bit)

/-- The function `is_sep_support`: `!!BITMAP_GET(val, SEP_BIT)`. -/
def is_sep_support (val : Nat) : Bool :=
  decide (BITMAP_GET val SEP_BIT ≠ 0)

/-- The function `is_family_6_support`. -/
def is_family_6_support (val : Nat) : Bool :=
  if GET_FAMILY_ID val = 0x6 ∧ GET_MODEL val < 0x3 ∧ GET_STEPPING_ID val < 0x3 then
    false
  else
    true

/-- The function `is_sysenter_support`, given `info[0]` (EAX) and `info[3]`
(EDX) of CPUID leaf 1. -/
def is_sysenter_support (eax edx : Nat) : Bool :=
  if !is_sep_support edx then false
  else if !is_family_6_support eax then false
  else true

/-- A leaf-1 EAX word with the given family, model and stepping fields. -/
def leaf1_eax (family model stepping : Nat) : Nat :=
  family * 256 + model * 16 + stepping

/-! ## 64-bit arithmetic and page alignment -/

/-- Addition of two `uint64_t` values. -/
def add64 (a b : Nat) : Nat := (a + b) % 2 ^ 64

/-- Subtraction of two `uint64_t` values. -/
def sub64 (a b : Nat) : Nat := (a % 2 ^ 64 + 2 ^ 64 - b % 2 ^ 64) % 2 ^ 64

/-- Modelled from the spec: `PAGE_SIZE` comes from a header outside this source
tree; it is the size of an x86 page, the unit of the spec's "page-aligned". -/
def PAGE_SIZE : Nat := 4096

/-- Modelled from the spec: the macro `PAGE_ALIGN` comes from a header outside
this source tree.  The spec calls `PAGE_ALIGN(&_end)` "the page-aligned end of
the image", the start of the region above the image: the value rounded up to
the next multiple of `PAGE_SIZE`, in 64-bit arithmetic. -/
def PAGE_ALIGN (x : Nat) : Nat :=
  ((x + (PAGE_SIZE - 1)) % 2 ^ 64) / PAGE_SIZE * PAGE_SIZE

/-! ## Build configuration, hardware answers, machine state -/

/-- Constants and switches of the build that `platform.c` takes from headers and
compiler flags outside this source tree. -/
structure Build where
  ARCH_X86_64 : Bool
  PAE_MODE_ENABLED : Bool
  ATTKB_HECI : Bool
  SPI_CONTROLLER : Bool
  ARCH_MMU_FLAG_PERM_RO : Nat
  ARCH_MMU_FLAG_PERM_NO_EXECUTE : Nat
  ARCH_MMU_FLAG_NS : Nat
  ARCH_MMU_FLAG_UNCACHED : Nat
  MEMBASE : Nat
  KERNEL_BASE : Nat
  KERNEL_ASPACE_BASE : Nat
  KERNEL_LOAD_OFFSET : Nat
  sizeof_device_sec_info_t : Nat

/-- The two functions that `smc_init` can store in `make_smc_vmcall`. -/
inductive SmcVmcall where
  | make_smc_vmcall_evmm
  | make_smc_vmcall_acrn
deriving DecidableEq, Repr

/-- The diagnostics printed by `platform.c`. -/
inductive Diag where
  | not_yet_supported
  | detected_vmm (vmm_id : Int)
  | sep_report
  | sysenter_unsupport
  | secinfo_alloc_failed (err : Int)
deriving DecidableEq, Repr

/-- The C `struct map_range`. -/
structure map_range where
  start_vaddr : Nat
  start_paddr : Nat
  size : Nat
deriving DecidableEq, Repr

/-- One mapping request: the arguments of a call of `x86_mmu_map_range`. -/
structure MapRequest where
  range : map_range
  access : Nat
deriving DecidableEq, Repr

/-- The externally visible steps of the boot code, in program order. -/
inductive Event where
  | vmm_alloc (size : Nat) (flags : Nat) (err : Int) (vaddr : Nat)
  | make_get_secinfo_vmcall (vaddr : Nat)
  | cpuid (leaf : Nat)
  | dprintf (d : Diag)
  | assign_make_smc_vmcall (f : SmcVmcall)
  | cse_init
  | x86_get_cr3
  | x86_set_cr3 (val : Nat)
  | x86_mmu_init
  | x86_mmu_map_range (pml4_table : Nat) (req : MapRequest)
  | spi_mmu_init
  | vmm_free_region (vaddr : Nat)
deriving DecidableEq, Repr

/-- A region of the kernel address space handed out by `vmm_alloc`. -/
structure Region where
  base : Nat
  size : Nat
deriving DecidableEq, Repr

/-- Whether address `a` lies in the region. -/
def Region.contains (r : Region) (a : Nat) : Bool :=
  decide (r.base ≤ a ∧ a < r.base + r.size)

/-- The program state that `platform.c` reads and writes: byte memory, the
regions of the kernel address space, the globals `g_sec_info` (`0` is `NULL`)
and `make_smc_vmcall`, and the steps taken so far. -/
structure State where
  mem : Nat → Nat
  regions : List Region
  g_sec_info : Nat
  make_smc_vmcall : Option SmcVmcall
  trace : List Event

/-- Why a run stopped. -/
inductive Halt where
  | page_fault (addr : Nat)
  | panic (d : Diag)
  | assert_failed
deriving DecidableEq, Repr

/-- The outcome of a step: the next state, or the reason the run stopped and the
state it stopped in. -/
abbrev Run := Except (Halt × State) State

/-- The state a run ended in, stopped or not. -/
def Run.state : Run → State
  | .ok s => s
  | .error (_, s) => s

/-- The reason a run stopped, if it did. -/
def Run.halt : Run → Option Halt
  | .ok _ => none
  | .error (h, _) => some h

/-- The state before anything ran: `g_sec_info = NULL`, nothing allocated,
`make_smc_vmcall` not assigned. -/
def boot_state : State :=
  { mem := fun _ => 0, regions := [], g_sec_info := 0, make_smc_vmcall := none, trace := [] }

/-- What the processor and the hypervisor answer during `platform_init`. -/
structure Hw where
  vmm_alloc_err : Int
  vmm_alloc_vaddr : Nat
  secinfo : List Nat
  sig_ebx : Nat
  sig_ecx : Nat
  sig_edx : Nat
  leaf1_eax : Nat
  leaf1_edx : Nat
  cr3 : Nat

/-! ## Memory access -/

/-- Whether address `a` is backed by an allocated region. -/
def valid (s : State) (a : Nat) : Bool :=
  s.regions.any (fun r => r.contains a)

/-- A one-byte load; an address outside every region faults. -/
def load8 (s : State) (a : Nat) : Except (Halt × State) Nat :=
  if valid s a then .ok (s.mem a % 256) else .error (.page_fault a, s)

/-- A little-endian `uint32_t` load. -/
def load32 (s : State) (a : Nat) : Except (Halt × State) Nat := do
  let b0 ← load8 s a
  let b1 ← load8 s (a + 1)
  let b2 ← load8 s (a + 2)
  let b3 ← load8 s (a + 3)
  pure (le32 b0 b1 b2 b3)

/-- The loop of C `memset(p, c, n)`: `n` bytes are still to be written, the
next one at offset `i`.  Bytes are written in ascending order; a byte outside
every region faults, and the bytes written before it stay written. -/
def memset_loop (s : State) (p c : Nat) : Nat → Nat → Run
  | _, 0 => .ok s
  | i, n + 1 =>
    if valid s (p + i) then
      memset_loop { s with mem := fun a => if a = p + i then c % 256 else s.mem a } p c (i + 1) n
    else
      .error (.page_fault (p + i), s)

/-- C `memset(p, c, n)`. -/
def memset (s : State) (p c n : Nat) : Run :=
  memset_loop s p c 0 n

/-- Modelled from the spec: `vmm_free_region` is the memory manager's, outside
this source tree; the spec says the call "release[s] the backing virtual
region": the regions that contain `vaddr` leave the address space. -/
def vmm_free_region (s : State) (vaddr : Nat) : State :=
  { s with
    regions := s.regions.filter (fun r => !r.contains vaddr)
    trace := s.trace ++ [.vmm_free_region vaddr] }

/-- Modelled from the spec: `trusty_device_info.h`, which declares
`device_sec_info_t`, is outside this source tree; the spec says the
descriptor's "first field is a size field giving the descriptor's own total byte
length".  The expression `g_sec_info->size_of_this_struct` is a 32-bit load at
offset 0 of the descriptor. -/
def read_size_of_this_struct (s : State) : Except (Halt × State) Nat :=
  load32 s s.g_sec_info

/-! ## Secure-info descriptor (`prepare_secinfo_region`, `clear_sensitive_data`) -/

/-- The function `clear_sensitive_data`. -/
def clear_sensitive_data (s : State) : Run := do
  let n ← read_size_of_this_struct s
  if n > 0 then
    let s1 ← memset s s.g_sec_info 0 n
    pure (vmm_free_region s1 s1.g_sec_info)
  else
    pure s

/-- The bytes after the hypervisor wrote `bytes` starting at `p`. -/
def write_bytes (mem : Nat → Nat) (p : Nat) (bytes : List Nat) : Nat → Nat :=
  fun a => if p ≤ a ∧ a < p + bytes.length then bytes.getD (a - p) 0 % 256 else mem a

/-- Modelled from the spec: `make_get_secinfo_vmcall` is declared in
`platform/vmcall.h`, outside this source tree; the spec says the hypercall
passes "the region's address, instructing the hypervisor to populate it in
place". -/
def make_get_secinfo_vmcall (hw : Hw) (s : State) (vaddr : Nat) : State :=
  { s with
    mem := write_bytes s.mem vaddr hw.secinfo
    trace := s.trace ++ [.make_get_secinfo_vmcall vaddr] }

/-- The function `prepare_secinfo_region`.  The call of `vmm_alloc` (the memory
manager's, outside this source tree) answers with `hw.vmm_alloc_err` and
`hw.vmm_alloc_vaddr`; on success the address space gains a region of whole pages
that holds a `device_sec_info_t`. -/
def prepare_secinfo_region (cfg : Build) (hw : Hw) (s : State) : Run :=
  let s1 : State :=
    { s with
      trace := s.trace ++ [.vmm_alloc cfg.sizeof_device_sec_info_t
        (cfg.ARCH_MMU_FLAG_PERM_NO_EXECUTE ||| cfg.ARCH_MMU_FLAG_UNCACHED)
        hw.vmm_alloc_err hw.vmm_alloc_vaddr] }
  if hw.vmm_alloc_err ≠ 0 then
    .error (.panic (.secinfo_alloc_failed hw.vmm_alloc_err), s1)
  else
    let s2 : State :=
      { s1 with
        regions := ⟨hw.vmm_alloc_vaddr, PAGE_ALIGN cfg.sizeof_device_sec_info_t⟩ :: s1.regions }
    let s3 := make_get_secinfo_vmcall hw s2 hw.vmm_alloc_vaddr
    .ok { s3 with g_sec_info := hw.vmm_alloc_vaddr }

/-! ## Hypercall backend binding (`smc_init`) -/

/-- The function `smc_init`.  `ASSERT(0)` (from `assert.h`, outside this source
tree) stops the run: the spec calls the unknown identity "unrecoverable: emit a
diagnostic naming the unsupported environment and abort boot". -/
def smc_init (hw : Hw) (s : State) : Run :=
  let s0 : State := { s with trace := s.trace ++ [.cpuid 0x40000000] }
  let vmm_id := detect_vmm hw.sig_ebx hw.sig_ecx hw.sig_edx
  if vmm_id = VMM_ID_EVMM then
    .ok { s0 with
      make_smc_vmcall := some .make_smc_vmcall_evmm
      trace := s0.trace ++
        [.assign_make_smc_vmcall .make_smc_vmcall_evmm, .dprintf (.detected_vmm vmm_id)] }
  else if vmm_id = VMM_ID_ACRN then
    .ok { s0 with
      make_smc_vmcall := some .make_smc_vmcall_acrn
      trace := s0.trace ++
        [.assign_make_smc_vmcall .make_smc_vmcall_acrn, .dprintf (.detected_vmm vmm_id)] }
  else
    .error (.assert_failed, { s0 with trace := s0.trace ++ [.dprintf .not_yet_supported] })

/-! ## Kernel image layout and the section mapper (`platform_update_pagetable`) -/

/-- One entry of `mmu_initial_mappings` (the fields used here). -/
structure mmu_initial_mapping where
  phys : Nat
  virt : Nat
  size : Nat
deriving DecidableEq, Repr

/-- The addresses of the linker symbols, the entry `mmu_initial_mappings[0]`,
and the two address translations of the memory manager (`kernel/vm.h`, outside
this source tree) that `platform_update_pagetable` calls.  The addresses and the
results of the translations are 64-bit values; 64-bit wrap-around is explicit
where the code computes with them. -/
structure Image where
  _start : Nat
  _end : Nat
  __code_start : Nat
  __code_end : Nat
  __rodata_start : Nat
  __rodata_end : Nat
  __data_start : Nat
  __data_end : Nat
  __bss_start : Nat
  __bss_end : Nat
  mmu_initial_mappings_0 : mmu_initial_mapping
  vaddr_to_paddr : Nat → Nat
  paddr_to_kvaddr : Nat → Nat

/-- The request for the kernel code section. -/
def code_request (cfg : Build) (img : Image) : MapRequest :=
  { range :=
      { start_vaddr := img.__code_start
        start_paddr := img.vaddr_to_paddr img.__code_start
        size := sub64 img.__code_end img.__code_start }
    access := cfg.ARCH_MMU_FLAG_PERM_RO }

/-- The request for the kernel data section. -/
def data_request (cfg : Build) (img : Image) : MapRequest :=
  { range :=
      { start_vaddr := img.__data_start
        start_paddr := img.vaddr_to_paddr img.__data_start
        size := sub64 img.__data_end img.__data_start }
    access :=
      if cfg.ARCH_X86_64 || cfg.PAE_MODE_ENABLED then
        0 ||| cfg.ARCH_MMU_FLAG_PERM_NO_EXECUTE
      else 0 }

/-- The request for the kernel rodata section. -/
def rodata_request (cfg : Build) (img : Image) : MapRequest :=
  { range :=
      { start_vaddr := img.__rodata_start
        start_paddr := img.vaddr_to_paddr img.__rodata_start
        size := sub64 img.__rodata_end img.__rodata_start }
    access :=
      if cfg.ARCH_X86_64 || cfg.PAE_MODE_ENABLED then
        cfg.ARCH_MMU_FLAG_PERM_RO ||| cfg.ARCH_MMU_FLAG_PERM_NO_EXECUTE
      else cfg.ARCH_MMU_FLAG_PERM_RO }

/-- The request for the kernel bss section and heap. -/
def bss_request (cfg : Build) (img : Image) : MapRequest :=
  { range :=
      { start_vaddr := img.__bss_start
        start_paddr := img.vaddr_to_paddr img.__bss_start
        size := sub64 img.__bss_end img.__bss_start }
    access :=
      if cfg.ARCH_X86_64 then 0 ||| cfg.ARCH_MMU_FLAG_PERM_NO_EXECUTE else 0 }

/-- The request "Mapping lower boundary to kernel start". -/
def lower_request (cfg : Build) (img : Image) : MapRequest :=
  { range :=
      { start_vaddr := img.paddr_to_kvaddr img.mmu_initial_mappings_0.phys
        start_paddr := img.mmu_initial_mappings_0.phys
        size := sub64 (img.vaddr_to_paddr img._start) img.mmu_initial_mappings_0.phys }
    access := cfg.ARCH_MMU_FLAG_PERM_NO_EXECUTE ||| cfg.ARCH_MMU_FLAG_NS }

/-- The request "Mapping upper boundary to target maxium memory size". -/
def upper_request (cfg : Build) (img : Image) : MapRequest :=
  let va := img._end
  let start_paddr := img.vaddr_to_paddr (PAGE_ALIGN va)
  { range :=
      { start_vaddr := PAGE_ALIGN va
        start_paddr := start_paddr
        size := sub64 (add64 img.mmu_initial_mappings_0.phys img.mmu_initial_mappings_0.size)
          start_paddr }
    access := cfg.ARCH_MMU_FLAG_PERM_NO_EXECUTE ||| cfg.ARCH_MMU_FLAG_NS }

/-- The six requests of `platform_update_pagetable`, in program order. -/
def pagetable_requests (cfg : Build) (img : Image) : List MapRequest :=
  [code_request cfg img, data_request cfg img, rodata_request cfg img, bss_request cfg img,
    lower_request cfg img, upper_request cfg img]

/-- The function `platform_update_pagetable`. -/
def platform_update_pagetable (cfg : Build) (img : Image) (hw : Hw) (s : State) : State :=
  let pml4_table := img.paddr_to_kvaddr hw.cr3
  { s with
    trace := s.trace ++ [.x86_get_cr3] ++
      (pagetable_requests cfg img).map (fun r => .x86_mmu_map_range pml4_table r) }

/-- The function `platform_init_mmu_mappings`: `x86_set_cr3(x86_get_cr3())`. -/
def platform_init_mmu_mappings (hw : Hw) (s : State) : State :=
  { s with trace := s.trace ++ [.x86_get_cr3, .x86_set_cr3 hw.cr3] }

/-! ## Heap arena (`platform_heap_init`, `heap_arena_init`) -/

/-- The C `pmm_arena_t` (the fields computed here). -/
structure pmm_arena_t where
  base : Nat
  size : Nat
deriving DecidableEq, Repr

/-- The unit `MB`. -/
def MB : Nat := 1024 * 1024

/-- The initialiser of `mmu_initial_mappings`: entries 0 ("kernel") and 1
("krnl_mem"). -/
def mmu_initial_mappings (cfg : Build) : mmu_initial_mapping × mmu_initial_mapping :=
  ({ phys := add64 cfg.MEMBASE cfg.KERNEL_LOAD_OFFSET
     virt := add64 cfg.KERNEL_BASE cfg.KERNEL_LOAD_OFFSET
     size := 16 * MB },
   { phys := 0
     virt := cfg.KERNEL_ASPACE_BASE
     size := 16 * MB })

/-- The function `platform_heap_init`, on `mmu_initial_mappings[0]` and
`mmu_initial_mappings[1]`. -/
def platform_heap_init (cfg : Build) (entry_phys _start : Nat)
    (m : mmu_initial_mapping × mmu_initial_mapping) :
    mmu_initial_mapping × mmu_initial_mapping :=
  ({ m.1 with
      phys := entry_phys % 2 ^ 64
      virt := sub64 _start cfg.KERNEL_LOAD_OFFSET },
   { m.2 with
      phys := add64 m.2.phys entry_phys
      virt := add64 m.2.virt entry_phys })

/-- The local `rsvd` of `heap_arena_init`. -/
def heap_rsvd (cfg : Build) (__bss_end : Nat) (m0 : mmu_initial_mapping) : Nat :=
  add64 (sub64 __bss_end m0.virt) cfg.KERNEL_LOAD_OFFSET

/-- The function `heap_arena_init`: the new `base` and `size` of `heap_arena`. -/
def heap_arena_init (cfg : Build) (__bss_end : Nat) (m0 : mmu_initial_mapping) : pmm_arena_t :=
  let rsvd := heap_rsvd cfg __bss_end m0
  { base := PAGE_ALIGN (add64 m0.phys rsvd)
    size := PAGE_ALIGN (sub64 m0.size rsvd) }

/-- The heap part of `platform_early_init` (built with `WITH_KERNEL_VM`):
`platform_heap_init`, then `heap_arena_init`; the result is
`mmu_initial_mappings[0]` and the arena handed to `pmm_add_arena`. -/
def platform_early_init (cfg : Build) (entry_phys _start __bss_end : Nat) :
    mmu_initial_mapping × pmm_arena_t :=
  let m := platform_heap_init cfg entry_phys _start (mmu_initial_mappings cfg)
  (m.1, heap_arena_init cfg __bss_end m.1)

/-! ## The late phase (`platform_init`) -/

/-- The call of `is_sysenter_support` inside `platform_init`: CPUID leaf 1, the
report of the fields, the verdict. -/
def check_sysenter (hw : Hw) (s : State) : Bool × State :=
  (is_sysenter_support hw.leaf1_eax hw.leaf1_edx,
   { s with trace := s.trace ++ [.cpuid 1, .dprintf .sep_report] })

/-- The function `platform_init`.  `panic` stops the run. -/
def platform_init (cfg : Build) (img : Image) (hw : Hw) (s : State) : Run := do
  let s1 ← prepare_secinfo_region cfg hw s
  let s2 ← smc_init hw s1
  let s3 : State :=
    if cfg.ATTKB_HECI then { s2 with trace := s2.trace ++ [.cse_init] } else s2
  let (supported, s4) := check_sysenter hw s3
  if !supported then
    .error (.panic .sysenter_unsupport, s4)
  else
    let s5 := platform_init_mmu_mappings hw s4
    let s6 : State := { s5 with trace := s5.trace ++ [.x86_mmu_init] }
    let s7 := platform_update_pagetable cfg img hw s6
    let s8 : State :=
      if cfg.SPI_CONTROLLER then { s7 with trace := s7.trace ++ [.spi_mmu_init] } else s7
    .ok s8

/-! ## Properties named by the specification -/

/-- Flag `f` is set in `access`. -/
def flag_set (access f : Nat) : Prop := access &&& f = f

/-- Flag `f` is clear in `access`. -/
def flag_clear (access f : Nat) : Prop := access &&& f = 0

/-- The flag constants of the build are usable as permission bits: the
read-only and no-execute flags are not empty and share no bit. -/
def flags_usable (cfg : Build) : Prop :=
  cfg.ARCH_MMU_FLAG_PERM_RO ≠ 0 ∧ cfg.ARCH_MMU_FLAG_PERM_NO_EXECUTE ≠ 0 ∧
  cfg.ARCH_MMU_FLAG_PERM_RO &&& cfg.ARCH_MMU_FLAG_PERM_NO_EXECUTE = 0

/-- A mapping is writable when its read-only flag is clear. -/
def writable (cfg : Build) (r : MapRequest) : Prop :=
  flag_clear r.access cfg.ARCH_MMU_FLAG_PERM_RO

/-- A mapping is executable when its no-execute flag is clear. -/
def executable (cfg : Build) (r : MapRequest) : Prop :=
  flag_clear r.access cfg.ARCH_MMU_FLAG_PERM_NO_EXECUTE

/-- The ordering the spec asks for in section 4.3: every
`make_get_secinfo_vmcall` in the trace comes after an assignment to
`make_smc_vmcall` (`bound` says whether one was seen already). -/
def hypercalls_after_bind : Bool → List Event → Bool
  | _, [] => true
  | bound, .make_get_secinfo_vmcall _ :: es => bound && hypercalls_after_bind bound es
  | _, .assign_make_smc_vmcall _ :: es => hypercalls_after_bind true es
  | bound, _ :: es => hypercalls_after_bind bound es

/-- Whether the event is a hypercall or an assignment to `make_smc_vmcall`. -/
def is_hypercall_or_bind : Event → Bool
  | .make_get_secinfo_vmcall _ => true
  | .assign_make_smc_vmcall _ => true
  | _ => false

/-- The value of `g_sec_info->size_of_this_struct` in state `s`, when the load
does not fault. -/
def size_of_this_struct (s : State) : Nat :=
  le32 (s.mem s.g_sec_info % 256) (s.mem (s.g_sec_info + 1) % 256)
    (s.mem (s.g_sec_info + 2) % 256) (s.mem (s.g_sec_info + 3) % 256)

/-- Two calls of `clear_sensitive_data` in a row. -/
def clear_twice (s : State) : Run := do
  let s1 ← clear_sensitive_data s
  clear_sensitive_data s1

/-- The steps a run added to the trace of the state it started from. -/
def events_since (s : State) (r : Run) : List Event :=
  r.state.trace.drop s.trace.length

/-- The steps of `platform_init` after a successful `smc_init`: the optional
`cse_init`, the fast-syscall gate and, when it passes, the CR3 reload,
`x86_mmu_init`, the six mapping requests and the optional `spi_mmu_init`. -/
def events_after_bind (cfg : Build) (img : Image) (hw : Hw) : List Event :=
  (if cfg.ATTKB_HECI then [.cse_init] else []) ++
  [.cpuid 1, .dprintf .sep_report] ++
  (if is_sysenter_support hw.leaf1_eax hw.leaf1_edx then
    [.x86_get_cr3, .x86_set_cr3 hw.cr3, .x86_mmu_init, .x86_get_cr3] ++
    (pagetable_requests cfg img).map
      (fun r => .x86_mmu_map_range (img.paddr_to_kvaddr hw.cr3) r) ++
    (if cfg.SPI_CONTROLLER then [.spi_mmu_init] else [])
  else [])

/-- The steps of a whole run of `platform_init`, in program order. -/
def platform_init_events (cfg : Build) (img : Image) (hw : Hw) : List Event :=
  .vmm_alloc cfg.sizeof_device_sec_info_t
      (cfg.ARCH_MMU_FLAG_PERM_NO_EXECUTE ||| cfg.ARCH_MMU_FLAG_UNCACHED)
      hw.vmm_alloc_err hw.vmm_alloc_vaddr ::
  (if hw.vmm_alloc_err ≠ 0 then []
   else
    [.make_get_secinfo_vmcall hw.vmm_alloc_vaddr, .cpuid 0x40000000] ++
    (if detect_vmm hw.sig_ebx hw.sig_ecx hw.sig_edx = VMM_ID_EVMM then
      [.assign_make_smc_vmcall .make_smc_vmcall_evmm, .dprintf (.detected_vmm 0)] ++
        events_after_bind cfg img hw
    else if detect_vmm hw.sig_ebx hw.sig_ecx hw.sig_edx = VMM_ID_ACRN then
      [.assign_make_smc_vmcall .make_smc_vmcall_acrn, .dprintf (.detected_vmm 1)] ++
        events_after_bind cfg img hw
    else [.dprintf .not_yet_supported]))

/-- An x86-64 build with the flag values of the LK memory manager. -/
def sample_build : Build :=
  { ARCH_X86_64 := true
    PAE_MODE_ENABLED := false
    ATTKB_HECI := false
    SPI_CONTROLLER := false
    ARCH_MMU_FLAG_PERM_RO := 8
    ARCH_MMU_FLAG_PERM_NO_EXECUTE := 16
    ARCH_MMU_FLAG_NS := 32
    ARCH_MMU_FLAG_UNCACHED := 1
    MEMBASE := 0
    KERNEL_BASE := 0x40000000
    KERNEL_ASPACE_BASE := 0x80000000
    KERNEL_LOAD_OFFSET := 0x200000
    sizeof_device_sec_info_t := 0x100 }

/-- A kernel mapping of 16 MB at physical `0x100000`, virtual `0x40000000`. -/
def sample_mapping : mmu_initial_mapping :=
  { phys := 0x100000, virt := 0x40000000, size := 0x1000000 }

/-- An image inside `sample_mapping`, translated linearly; `_end` is not a
multiple of the page size. -/
def sample_image : Image :=
  { _start := 0x40200000
    _end := 0x4020A010
    __code_start := 0x40200000
    __code_end := 0x40204000
    __rodata_start := 0x40204000
    __rodata_end := 0x40206000
    __data_start := 0x40206000
    __data_end := 0x40208000
    __bss_start := 0x40208000
    __bss_end := 0x4020A008
    mmu_initial_mappings_0 := sample_mapping
    vaddr_to_paddr := fun v => v - 0x40000000 + 0x100000
    paddr_to_kvaddr := fun p => p - 0x100000 + 0x40000000 }

/-- Hardware that reports the signature "ACRNACRNACRN", family 6 model 5
stepping 0 with SEP set, a successful allocation at `0x7000`, and a descriptor
of 8 bytes. -/
def acrn_hw : Hw :=
  { vmm_alloc_err := 0
    vmm_alloc_vaddr := 0x7000
    secinfo := [8, 0, 0, 0, 0xAA, 0xBB, 0xCC, 0xDD]
    sig_ebx := le32 0x41 0x43 0x52 0x4E
    sig_ecx := le32 0x41 0x43 0x52 0x4E
    sig_edx := le32 0x41 0x43 0x52 0x4E
    leaf1_eax := leaf1_eax 6 5 0
    leaf1_edx := 2 ^ 11
    cr3 := 0x101000 }

/-- The same hardware with the signature "EVMMEVMMEVMM". -/
def evmm_hw : Hw :=
  { acrn_hw with
    sig_ebx := le32 0x45 0x56 0x4D 0x4D
    sig_ecx := le32 0x45 0x56 0x4D 0x4D
    sig_edx := le32 0x45 0x56 0x4D 0x4D }

/-- The same hardware with the signature "KVMKVMKVM" and three NUL bytes. -/
def kvm_hw : Hw :=
  { acrn_hw with
    sig_ebx := le32 0x4B 0x56 0x4D 0x4B
    sig_ecx := le32 0x56 0x4D 0x4B 0x56
    sig_edx := le32 0x4D 0 0 0 }

/-- A state with a populated descriptor of `size_of_this_struct = 8` at `0x7000`
inside an allocated page, and an unrelated byte `0x55` right behind it. -/
def populated_state : State :=
  { mem := fun a =>
      if a = 0x7000 then 8 else if a = 0x7004 then 0xAA else if a = 0x7007 then 0xDD
      else if a = 0x7008 then 0x55 else 0
    regions := [⟨0x7000, 0x1000⟩]
    g_sec_info := 0x7000
    make_smc_vmcall := some .make_smc_vmcall_acrn
    trace := [] }

/-! # Theorems -/

/-! ## Hypervisor detection -/


theorem memcmp_from_eq_zero_iff (s1 s2 : Nat → Nat) (n k : Nat) :
    memcmp_from s1 s2 k n = 0 ↔ ∀ j, j < n → s1 (k + j) = s2 (k + j) := by
  induction n generalizing k with
  | zero => simp [memcmp_from]
  | succ n ih =>
    unfold memcmp_from
    by_cases h : s1 k = s2 k
    · rw [if_pos h, ih]
      constructor
      · intro hall j hj
        cases j with
        | zero => simpa using h
        | succ j =>
          have := hall j (by omega)
          simpa [Nat.add_assoc, Nat.add_comm 1 j] using this
      · intro hall j hj
        have := hall (j + 1) (by omega)
        simpa [Nat.add_assoc, Nat.add_comm 1 j] using this
    · rw [if_neg h]
      constructor
      · intro hz
        exfalso
        apply h
        have : (s1 k : Int) = (s2 k : Int) := by omega
        exact_mod_cast this
      · intro hall
        exact absurd (by simpa using hall 0 (by omega)) h

theorem memcmp_eq_zero_iff (s1 s2 : Nat → Nat) (n : Nat) :
    memcmp s1 s2 n = 0 ↔ ∀ j, j < n → s1 j = s2 j := by
  unfold memcmp
  rw [memcmp_from_eq_zero_iff]
  simp

theorem memcmp_sig_iff (i ebx ecx edx : Nat) :
    memcmp (vmm_signature i) (signature_mem ebx ecx edx) 12 = 0 ↔
      signature_bytes ebx ecx edx = (List.range 12).map (vmm_signature i) := by
  rw [memcmp_eq_zero_iff]
  unfold signature_bytes
  constructor
  · intro h
    apply List.map_congr_left
    intro j hj
    exact (h j (List.mem_range.mp hj)).symm
  · intro h j hj
    have := (List.map_inj_left.mp h) j (List.mem_range.mpr hj)
    exact this.symm

theorem vmm_signature_evmm :
    (List.range 12).map (vmm_signature VMM_ID_EVMM) = ascii "EVMMEVMMEVMM" := by
  decide

theorem vmm_signature_acrn :
    (List.range 12).map (vmm_signature VMM_ID_ACRN) = ascii "ACRNACRNACRN" := by
  decide

theorem ascii_evmm_ne_acrn : ascii "EVMMEVMMEVMM" ≠ ascii "ACRNACRNACRN" := by
  decide

theorem ascii_acrn_ne_evmm : ascii "ACRNACRNACRN" ≠ ascii "EVMMEVMMEVMM" := by
  decide

theorem detect_vmm_cases (ebx ecx edx : Nat) :
    detect_vmm ebx ecx edx =
      if signature_bytes ebx ecx edx = ascii "EVMMEVMMEVMM" then (VMM_ID_EVMM : Int)
      else if signature_bytes ebx ecx edx = ascii "ACRNACRNACRN" then (VMM_ID_ACRN : Int)
      else -1 := by
  have h0 := memcmp_sig_iff VMM_ID_EVMM ebx ecx edx
  have h1 := memcmp_sig_iff VMM_ID_ACRN ebx ecx edx
  rw [vmm_signature_evmm] at h0
  rw [vmm_signature_acrn] at h1
  unfold detect_vmm VMM_SUPPORTED_NUM
  simp only [detect_vmm_loop]
  by_cases he : signature_bytes ebx ecx edx = ascii "EVMMEVMMEVMM"
  · have : memcmp (vmm_signature VMM_ID_EVMM) (signature_mem ebx ecx edx) 12 = 0 := h0.mpr he
    simp only [VMM_ID_EVMM] at this
    simp [this, he, VMM_ID_EVMM]
  · have hn : ¬ memcmp (vmm_signature VMM_ID_EVMM) (signature_mem ebx ecx edx) 12 = 0 :=
      fun h => he (h0.mp h)
    simp only [VMM_ID_EVMM] at hn
    by_cases ha : signature_bytes ebx ecx edx = ascii "ACRNACRNACRN"
    · have : memcmp (vmm_signature VMM_ID_ACRN) (signature_mem ebx ecx edx) 12 = 0 := h1.mpr ha
      simp only [VMM_ID_ACRN] at this
      simp [hn, this, ha, ascii_acrn_ne_evmm, VMM_ID_ACRN]
    · have hm : ¬ memcmp (vmm_signature VMM_ID_ACRN) (signature_mem ebx ecx edx) 12 = 0 :=
        fun h => ha (h1.mp h)
      simp only [VMM_ID_ACRN] at hm
      simp [hn, hm, he, ha]

/-- The four bytes of a little-endian packed register. -/
theorem byte_of_le32 (b0 b1 b2 b3 : Nat)
    (h0 : b0 < 256) (h1 : b1 < 256) (h2 : b2 < 256) (h3 : b3 < 256) :
    ((le32 b0 b1 b2 b3 % 2 ^ 32) >>> 0) &&& 0xFF = b0 ∧
    ((le32 b0 b1 b2 b3 % 2 ^ 32) >>> 8) &&& 0xFF = b1 ∧
    ((le32 b0 b1 b2 b3 % 2 ^ 32) >>> 16) &&& 0xFF = b2 ∧
    ((le32 b0 b1 b2 b3 % 2 ^ 32) >>> 24) &&& 0xFF = b3 := by
  have hm : ∀ x : Nat, x &&& 0xFF = x % 256 := fun x => Nat.and_pow_two_sub_one_eq_mod x 8
  simp only [hm, Nat.shiftRight_eq_div_pow]
  unfold le32
  omega

/-- Every twelve bytes are the signature bytes of some register contents: the
little-endian packing of each group of four. -/
theorem signature_bytes_le32 (b0 b1 b2 b3 b4 b5 b6 b7 b8 b9 b10 b11 : Nat)
    (h0 : b0 < 256) (h1 : b1 < 256) (h2 : b2 < 256) (h3 : b3 < 256)
    (h4 : b4 < 256) (h5 : b5 < 256) (h6 : b6 < 256) (h7 : b7 < 256)
    (h8 : b8 < 256) (h9 : b9 < 256) (h10 : b10 < 256) (h11 : b11 < 256) :
    signature_bytes (le32 b0 b1 b2 b3) (le32 b4 b5 b6 b7) (le32 b8 b9 b10 b11) =
      [b0, b1, b2, b3, b4, b5, b6, b7, b8, b9, b10, b11] := by
  obtain ⟨a0, a1, a2, a3⟩ := byte_of_le32 b0 b1 b2 b3 h0 h1 h2 h3
  obtain ⟨a4, a5, a6, a7⟩ := byte_of_le32 b4 b5 b6 b7 h4 h5 h6 h7
  obtain ⟨a8, a9, a10, a11⟩ := byte_of_le32 b8 b9 b10 b11 h8 h9 h10 h11
  have hr : List.range 12 = [0, 1, 2, 3, 4, 5, 6, 7, 8, 9, 10, 11] := by decide
  unfold signature_bytes
  rw [hr]
  simp only [List.map, signature_mem]
  norm_num
  exact ⟨a0, a1, a2, a3, a4, a5, a6, a7, a8, a9, a10, a11⟩

/-! ### C1 -/

/-- C1: `detect_vmm` is an exact 12-byte lookup.  For every EBX, ECX, EDX read
from CPUID leaf `0x40000000` it returns `VMM_ID_EVMM` iff the twelve signature
bytes are "EVMMEVMMEVMM", `VMM_ID_ACRN` iff they are "ACRNACRNACRN", and `-1`
iff they are neither; a lower-case spelling and a spelling that differs in its
last byte only both give `-1`. -/
theorem detect_vmm_exact_lookup (ebx ecx edx : Nat) :
    (detect_vmm ebx ecx edx = VMM_ID_EVMM ↔
        signature_bytes ebx ecx edx = ascii "EVMMEVMMEVMM") ∧
    (detect_vmm ebx ecx edx = VMM_ID_ACRN ↔
        signature_bytes ebx ecx edx = ascii "ACRNACRNACRN") ∧
    (detect_vmm ebx ecx edx = -1 ↔
        (signature_bytes ebx ecx edx ≠ ascii "EVMMEVMMEVMM" ∧
         signature_bytes ebx ecx edx ≠ ascii "ACRNACRNACRN")) ∧
    detect_vmm (le32 0x45 0x56 0x4D 0x4D) (le32 0x45 0x56 0x4D 0x4D)
        (le32 0x45 0x56 0x4D 0x4D) = VMM_ID_EVMM ∧
    detect_vmm (le32 0x41 0x43 0x52 0x4E) (le32 0x41 0x43 0x52 0x4E)
        (le32 0x41 0x43 0x52 0x4E) = VMM_ID_ACRN ∧
    detect_vmm (le32 0x65 0x76 0x6D 0x6D) (le32 0x65 0x76 0x6D 0x6D)
        (le32 0x65 0x76 0x6D 0x6D) = -1 ∧
    detect_vmm (le32 0x61 0x63 0x72 0x6E) (le32 0x61 0x63 0x72 0x6E)
        (le32 0x61 0x63 0x72 0x6E) = -1 ∧
    detect_vmm (le32 0x45 0x56 0x4D 0x4D) (le32 0x45 0x56 0x4D 0x4D)
        (le32 0x45 0x56 0x4D 0x4E) = -1 ∧
    detect_vmm (le32 0x41 0x43 0x52 0x4E) (le32 0x41 0x43 0x52 0x4E)
        (le32 0x41 0x43 0x52 0x4F) = -1 := by
  have hc := detect_vmm_cases ebx ecx edx
  have hne := ascii_evmm_ne_acrn
  have hne2 := ascii_acrn_ne_evmm
  refine ⟨?_, ?_, ?_, by decide, by decide, by decide, by decide, by decide, by decide⟩
  · by_cases he : signature_bytes ebx ecx edx = ascii "EVMMEVMMEVMM"
    · simp [hc, he]
    · by_cases ha : signature_bytes ebx ecx edx = ascii "ACRNACRNACRN"
      · simp [hc, ha, hne2, VMM_ID_EVMM, VMM_ID_ACRN]
      · simp [hc, he, ha, VMM_ID_EVMM]
  · by_cases he : signature_bytes ebx ecx edx = ascii "EVMMEVMMEVMM"
    · simp [hc, he, hne, VMM_ID_EVMM, VMM_ID_ACRN]
    · by_cases ha : signature_bytes ebx ecx edx = ascii "ACRNACRNACRN"
      · simp [hc, ha, hne2]
      · simp [hc, he, ha, VMM_ID_ACRN]
  · by_cases he : signature_bytes ebx ecx edx = ascii "EVMMEVMMEVMM"
    · simp [hc, he, VMM_ID_EVMM]
    · by_cases ha : signature_bytes ebx ecx edx = ascii "ACRNACRNACRN"
      · simp [hc, ha, hne2, VMM_ID_ACRN]
      · simp [hc, he, ha]

/-! ## Fast-syscall gate -/


theorem GET_STEPPING_ID_eq (val : Nat) : GET_STEPPING_ID val = val % 16 := by
  unfold GET_STEPPING_ID
  exact Nat.and_pow_two_sub_one_eq_mod val 4

theorem GET_MODEL_eq (val : Nat) : GET_MODEL val = val / 16 % 16 := by
  unfold GET_MODEL
  rw [Nat.shiftRight_eq_div_pow]
  exact Nat.and_pow_two_sub_one_eq_mod (val / 2 ^ 4) 4

theorem GET_FAMILY_ID_eq (val : Nat) : GET_FAMILY_ID val = val / 256 % 16 := by
  unfold GET_FAMILY_ID
  rw [Nat.shiftRight_eq_div_pow]
  exact Nat.and_pow_two_sub_one_eq_mod (val / 2 ^ 8) 4

theorem is_sep_support_iff (val : Nat) :
    is_sep_support val = true ↔ val / 2 ^ 11 % 2 = 1 := by
  unfold is_sep_support BITMAP_GET SEP_BIT
  rw [Nat.one_shiftLeft, Nat.and_two_pow, Nat.testBit_to_div_mod]
  by_cases h : val / 2 ^ 11 % 2 = 1
  · simp [h]
  · simp [h]

/-! ### C3 -/

/-- C3: `is_sysenter_support` returns true exactly when bit 11 (SEP) of the
leaf-1 EDX word is set and it is not the case that family = 6, model < 3 and
stepping < 3 (bits 8-11, 4-7 and 0-3 of the leaf-1 EAX word); with SEP unset it
returns false whatever the EAX word; (6,2,2) and (6,1,1) with SEP set are
unsupported and (6,5,0) with SEP set is supported. -/
theorem is_sysenter_support_iff (eax edx : Nat) :
    (is_sysenter_support eax edx = true ↔
      (edx / 2 ^ 11 % 2 = 1 ∧
        ¬ (eax / 256 % 16 = 6 ∧ eax / 16 % 16 < 3 ∧ eax % 16 < 3))) ∧
    (GET_FAMILY_ID eax = eax / 256 % 16 ∧ GET_MODEL eax = eax / 16 % 16 ∧
      GET_STEPPING_ID eax = eax % 16) ∧
    (¬ (edx / 2 ^ 11 % 2 = 1) ↔ is_sep_support edx = false) ∧
    (is_sep_support edx = false ↔ ∀ a, is_sysenter_support a edx = false) ∧
    is_sysenter_support (leaf1_eax 6 2 2) (2 ^ 11) = false ∧
    is_sysenter_support (leaf1_eax 6 1 1) (2 ^ 11) = false ∧
    is_sysenter_support (leaf1_eax 6 5 0) (2 ^ 11) = true ∧
    is_sysenter_support (leaf1_eax 6 5 0) 0 = false := by
  have hsep := is_sep_support_iff edx
  refine ⟨?_, ⟨GET_FAMILY_ID_eq eax, GET_MODEL_eq eax, GET_STEPPING_ID_eq eax⟩, ?_, ?_,
    by decide, by decide, by decide, by decide⟩
  · unfold is_sysenter_support is_family_6_support
    rw [GET_FAMILY_ID_eq, GET_MODEL_eq, GET_STEPPING_ID_eq]
    by_cases hs : is_sep_support edx = true
    · have h1 := hsep.mp hs
      norm_num at h1
      by_cases hf : eax / 256 % 16 = 6 ∧ eax / 16 % 16 < 3 ∧ eax % 16 < 3
      · simp [hs, hf]
      · simp [hs, hf, h1]
    · have h1 : ¬ edx / 2 ^ 11 % 2 = 1 := fun h => hs (hsep.mpr h)
      norm_num at h1
      simp [hs, h1]
  · rw [← hsep]
    simp
  · constructor
    · intro h a
      simp [is_sysenter_support, h]
    · intro h
      have := h (leaf1_eax 6 5 0)
      by_cases hs : is_sep_support edx = true
      · have hf : is_family_6_support (leaf1_eax 6 5 0) = true := by decide
        simp [is_sysenter_support, hs, hf] at this
      · simpa using hs

/-! ## Hypercall backend binding -/

/-! ### C2 -/

/-- C2: `smc_init` binds the backend from the detected identity.  With the
signature "EVMMEVMMEVMM" it assigns `make_smc_vmcall_evmm`, with "ACRNACRNACRN"
it assigns `make_smc_vmcall_acrn`, and with any other signature it prints the
"not yet supported" diagnostic, stops at the assertion and leaves
`make_smc_vmcall` as it was.  The run stops exactly when `detect_vmm` returned
`-1`; the two backends are distinct; the ACRN signature ends with the ACRN
backend bound. -/
theorem smc_init_binds_by_identity (hw : Hw) (s : State) :
    smc_init hw s =
      (if signature_bytes hw.sig_ebx hw.sig_ecx hw.sig_edx = ascii "EVMMEVMMEVMM" then
        .ok { s with
          make_smc_vmcall := some .make_smc_vmcall_evmm
          trace := s.trace ++ [.cpuid 0x40000000,
            .assign_make_smc_vmcall .make_smc_vmcall_evmm, .dprintf (.detected_vmm 0)] }
      else if signature_bytes hw.sig_ebx hw.sig_ecx hw.sig_edx = ascii "ACRNACRNACRN" then
        .ok { s with
          make_smc_vmcall := some .make_smc_vmcall_acrn
          trace := s.trace ++ [.cpuid 0x40000000,
            .assign_make_smc_vmcall .make_smc_vmcall_acrn, .dprintf (.detected_vmm 1)] }
      else
        .error (.assert_failed,
          { s with trace := s.trace ++ [.cpuid 0x40000000, .dprintf .not_yet_supported] })) ∧
    ((smc_init hw s).halt = some .assert_failed ↔
      detect_vmm hw.sig_ebx hw.sig_ecx hw.sig_edx = -1) ∧
    ((smc_init hw s).halt = none ↔
      (detect_vmm hw.sig_ebx hw.sig_ecx hw.sig_edx = VMM_ID_EVMM ∨
       detect_vmm hw.sig_ebx hw.sig_ecx hw.sig_edx = VMM_ID_ACRN)) ∧
    SmcVmcall.make_smc_vmcall_evmm ≠ SmcVmcall.make_smc_vmcall_acrn ∧
    signature_bytes acrn_hw.sig_ebx acrn_hw.sig_ecx acrn_hw.sig_edx = ascii "ACRNACRNACRN" ∧
    (smc_init acrn_hw boot_state).halt = none ∧
    (smc_init acrn_hw boot_state).state.make_smc_vmcall = some .make_smc_vmcall_acrn ∧
    (smc_init evmm_hw boot_state).halt = none ∧
    (smc_init evmm_hw boot_state).state.make_smc_vmcall = some .make_smc_vmcall_evmm ∧
    (smc_init kvm_hw boot_state).halt = some .assert_failed ∧
    (smc_init kvm_hw boot_state).state.make_smc_vmcall = none := by
  have hc := detect_vmm_cases hw.sig_ebx hw.sig_ecx hw.sig_edx
  have hne2 := ascii_acrn_ne_evmm
  refine ⟨?_, ?_, ?_, by decide, by decide, by decide, by decide, by decide, by decide,
    by decide, by decide⟩
  · unfold smc_init
    by_cases he : signature_bytes hw.sig_ebx hw.sig_ecx hw.sig_edx = ascii "EVMMEVMMEVMM"
    · simp [hc, he, VMM_ID_EVMM, VMM_ID_ACRN]
    · by_cases ha : signature_bytes hw.sig_ebx hw.sig_ecx hw.sig_edx = ascii "ACRNACRNACRN"
      · simp [hc, ha, hne2, VMM_ID_EVMM, VMM_ID_ACRN]
      · simp [hc, he, ha, VMM_ID_EVMM, VMM_ID_ACRN]
  · unfold smc_init
    by_cases he : signature_bytes hw.sig_ebx hw.sig_ecx hw.sig_edx = ascii "EVMMEVMMEVMM"
    · simp [hc, he, VMM_ID_EVMM, VMM_ID_ACRN, Run.halt]
    · by_cases ha : signature_bytes hw.sig_ebx hw.sig_ecx hw.sig_edx = ascii "ACRNACRNACRN"
      · simp [hc, ha, hne2, VMM_ID_EVMM, VMM_ID_ACRN, Run.halt]
      · simp [hc, he, ha, VMM_ID_EVMM, VMM_ID_ACRN, Run.halt]
  · unfold smc_init
    by_cases he : signature_bytes hw.sig_ebx hw.sig_ecx hw.sig_edx = ascii "EVMMEVMMEVMM"
    · simp [hc, he, VMM_ID_EVMM, VMM_ID_ACRN, Run.halt]
    · by_cases ha : signature_bytes hw.sig_ebx hw.sig_ecx hw.sig_edx = ascii "ACRNACRNACRN"
      · simp [hc, ha, hne2, VMM_ID_EVMM, VMM_ID_ACRN, Run.halt]
      · simp [hc, he, ha, VMM_ID_EVMM, VMM_ID_ACRN, Run.halt]

/-! ## Secure-info descriptor -/

theorem memset_loop_ok (p c n : Nat) :
    ∀ (s : State) (i : Nat), (∀ j, j < n → valid s (p + i + j) = true) →
      ∃ s1, memset_loop s p c i n = .ok s1 ∧
        s1.regions = s.regions ∧ s1.g_sec_info = s.g_sec_info ∧
        s1.make_smc_vmcall = s.make_smc_vmcall ∧ s1.trace = s.trace ∧
        ∀ a, s1.mem a = if p + i ≤ a ∧ a < p + i + n then c % 256 else s.mem a := by
  induction n with
  | zero =>
    intro s i _
    refine ⟨s, rfl, rfl, rfl, rfl, rfl, ?_⟩
    intro a
    have : ¬ (p + i ≤ a ∧ a < p + i + 0) := by omega
    rw [if_neg this]
  | succ n ih =>
    intro s i h
    have h0 : valid s (p + i) = true := by simpa using h 0 (by omega)
    have hrest : ∀ j, j < n →
        valid { s with mem := fun a => if a = p + i then c % 256 else s.mem a }
          (p + (i + 1) + j) = true := by
      intro j hj
      have := h (j + 1) (by omega)
      have e : p + (i + 1) + j = p + i + (j + 1) := by omega
      rw [e]
      exact this
    obtain ⟨s1, hrun, hreg, hptr, hsmc, htr, hmem⟩ :=
      ih { s with mem := fun a => if a = p + i then c % 256 else s.mem a } (i + 1) hrest
    refine ⟨s1, ?_, hreg, hptr, hsmc, htr, ?_⟩
    · simp only [memset_loop, h0, if_true]
      exact hrun
    · intro a
      rw [hmem a]
      by_cases ha : a = p + i
      · have h1 : ¬ (p + (i + 1) ≤ a ∧ a < p + (i + 1) + n) := by omega
        have h2 : p + i ≤ a ∧ a < p + i + (n + 1) := by omega
        simp [h1, h2, ha]
      · by_cases hb : p + (i + 1) ≤ a ∧ a < p + (i + 1) + n
        · have h2 : p + i ≤ a ∧ a < p + i + (n + 1) := by omega
          simp [hb, h2]
        · have h2 : ¬ (p + i ≤ a ∧ a < p + i + (n + 1)) := by omega
          simp [hb, h2, ha]

theorem memset_ok (s : State) (p c n : Nat)
    (h : ∀ i, i < n → valid s (p + i) = true) :
    ∃ s1, memset s p c n = .ok s1 ∧
      s1.regions = s.regions ∧ s1.g_sec_info = s.g_sec_info ∧
      s1.make_smc_vmcall = s.make_smc_vmcall ∧ s1.trace = s.trace ∧
      ∀ a, s1.mem a = if p ≤ a ∧ a < p + n then c % 256 else s.mem a := by
  have := memset_loop_ok p c n s 0 (by simpa using h)
  simpa [memset] using this

theorem load32_ok (s : State) (a : Nat)
    (h : ∀ i, i < 4 → valid s (a + i) = true) :
    load32 s a = .ok (le32 (s.mem a % 256) (s.mem (a + 1) % 256)
      (s.mem (a + 2) % 256) (s.mem (a + 3) % 256)) := by
  have h0 : valid s a = true := by simpa using h 0 (by omega)
  have h1 := h 1 (by omega)
  have h2 := h 2 (by omega)
  have h3 := h 3 (by omega)
  simp [load32, load8, h0, h1, h2, h3, bind, Except.bind, pure, Except.pure]

theorem load32_fault (s : State) (a : Nat) (h : valid s a = false) :
    load32 s a = .error (.page_fault a, s) := by
  simp [load32, load8, h, bind, Except.bind]

theorem valid_vmm_free_region (s : State) (p : Nat) :
    valid (vmm_free_region s p) p = false := by
  unfold valid vmm_free_region
  simp only [List.any_eq_false, List.mem_filter]
  intro r hr
  simpa using hr.2

/-- The size-zero branch of `clear_sensitive_data`: a mapped descriptor whose
size field reads zero leaves the state as it was. -/
theorem clear_sensitive_data_size_zero (s : State)
    (hhdr : ∀ i, i < 4 → valid s (s.g_sec_info + i) = true)
    (hzero : size_of_this_struct s = 0) :
    clear_sensitive_data s = .ok s := by
  unfold clear_sensitive_data read_size_of_this_struct
  rw [load32_ok s s.g_sec_info hhdr]
  unfold size_of_this_struct at hzero
  simp [hzero, bind, Except.bind, pure, Except.pure]

/-- The pointer dereference of `clear_sensitive_data` is unconditional: a
`g_sec_info` that no region backs makes the call fault at that address. -/
theorem clear_sensitive_data_unmapped (s : State) (h : valid s s.g_sec_info = false) :
    clear_sensitive_data s = .error (.page_fault s.g_sec_info, s) := by
  unfold clear_sensitive_data read_size_of_this_struct
  rw [load32_fault s s.g_sec_info h]
  rfl

/-- The size-positive branch of `clear_sensitive_data`: for every state whose
descriptor at `g_sec_info` is backed by allocated regions and reports
`size_of_this_struct = N > 0`, the call returns, has overwritten exactly the `N`
bytes starting at the descriptor's address with zero (no other byte changes),
and has released the region that backs the descriptor. -/
theorem clear_sensitive_data_zeroes_exactly (s : State) (N : Nat)
    (hhdr : ∀ i, i < 4 → valid s (s.g_sec_info + i) = true)
    (hsize : size_of_this_struct s = N)
    (hpos : 0 < N)
    (hrange : ∀ i, i < N → valid s (s.g_sec_info + i) = true) :
    ∃ s1, clear_sensitive_data s = .ok s1 ∧
      (∀ a, s1.mem a = if s.g_sec_info ≤ a ∧ a < s.g_sec_info + N then 0 else s.mem a) ∧
      s1.regions = s.regions.filter (fun r => !r.contains s.g_sec_info) ∧
      valid s1 s.g_sec_info = false ∧
      s1.make_smc_vmcall = s.make_smc_vmcall := by
  obtain ⟨m, hrun, hreg, hptr, hsmc, _, hmem⟩ := memset_ok s s.g_sec_info 0 N hrange
  refine ⟨vmm_free_region m m.g_sec_info, ?_, ?_, ?_, ?_, ?_⟩
  · unfold clear_sensitive_data read_size_of_this_struct
    rw [load32_ok s s.g_sec_info hhdr]
    unfold size_of_this_struct at hsize
    simp only [bind, Except.bind, pure, Except.pure, hsize, gt_iff_lt, hpos, if_true]
    rw [hrun]
  · intro a
    have := hmem a
    simpa [vmm_free_region] using this
  · simp [vmm_free_region, hreg, hptr]
  · rw [hptr]
    have := valid_vmm_free_region m m.g_sec_info
    rw [hptr] at this
    exact this
  · simpa [vmm_free_region] using hsmc

/-- At `populated_state` (descriptor of 8 bytes at `0x7000`) the call zeroes
`0x7000 .. 0x7007`, keeps the byte at `0x7008`, and releases the page. -/
theorem clear_sensitive_data_zeroes_populated :
    ∃ s1, clear_sensitive_data populated_state = .ok s1 ∧
      (∀ a, s1.mem a =
        if populated_state.g_sec_info ≤ a ∧ a < populated_state.g_sec_info + 8 then 0
        else populated_state.mem a) ∧
      s1.regions =
        populated_state.regions.filter (fun r => !r.contains populated_state.g_sec_info) ∧
      valid s1 populated_state.g_sec_info = false ∧
      s1.make_smc_vmcall = populated_state.make_smc_vmcall :=
  clear_sensitive_data_zeroes_exactly populated_state 8
    (by decide) (by decide) (by decide) (by decide)

/-! ### C4 -/

/-- C4 fails on the code: at `populated_state` the descriptor is non-null and
reports size 8; the call returns, the eight bytes `0x7000 .. 0x7007` are zero,
the byte at `0x7008` is untouched and the page is released, but `g_sec_info` is
not null afterwards: it still holds `0x7000`, the address of the released
region.  `clear_sensitive_data` has no assignment to `g_sec_info`. -/
theorem clear_sensitive_data_keeps_pointer :
    populated_state.g_sec_info ≠ 0 ∧
    size_of_this_struct populated_state = 8 ∧
    (clear_sensitive_data populated_state).halt = none ∧
    (List.range 9).map (fun i => (clear_sensitive_data populated_state).state.mem (0x7000 + i)) =
      [0, 0, 0, 0, 0, 0, 0, 0, 0x55] ∧
    (clear_sensitive_data populated_state).state.regions = [] ∧
    (clear_sensitive_data populated_state).state.g_sec_info = 0x7000 ∧
    (clear_sensitive_data populated_state).state.g_sec_info ≠ 0 ∧
    valid (clear_sensitive_data populated_state).state 0x7000 = false := by
  decide

/-! ### C5 -/

/-- C5 fails on the code: with `g_sec_info = NULL` (the boot state, `prepare`
never ran) `clear_sensitive_data` loads `size_of_this_struct` through the null
pointer and faults at address 0; and after a first call that returned, a second
call loads through the pointer to the released region and faults at `0x7000`. -/
theorem clear_sensitive_data_null_and_twice :
    boot_state.g_sec_info = 0 ∧
    (clear_sensitive_data boot_state).halt = some (.page_fault 0) ∧
    (clear_sensitive_data populated_state).halt = none ∧
    (clear_twice populated_state).halt = some (.page_fault 0x7000) ∧
    (clear_twice populated_state).halt ≠ (clear_sensitive_data populated_state).halt := by
  decide

/-! ## Section mapper -/

theorem or_and_self_left (a b : Nat) : (a ||| b) &&& a = a := by
  apply Nat.eq_of_testBit_eq
  intro i
  simp only [Nat.testBit_and, Nat.testBit_or]
  cases a.testBit i <;> cases b.testBit i <;> rfl

theorem or_and_self_right (a b : Nat) : (a ||| b) &&& b = b := by
  apply Nat.eq_of_testBit_eq
  intro i
  simp only [Nat.testBit_and, Nat.testBit_or]
  cases a.testBit i <;> cases b.testBit i <;> rfl

/-! ### C6 -/

/-- C6: in an x86-64 build whose read-only and no-execute flags are non-empty
and share no bit, the six requests of `platform_update_pagetable` obey least
privilege: code is read-only and executable; rodata is read-only and
non-executable; data and bss are writable and non-executable; both boundary
requests carry NO_EXECUTE and NS.  Hence neither code nor rodata is writable and
none of data, bss and the two boundaries is executable. -/
theorem pagetable_least_privilege (cfg : Build) (img : Image)
    (h64 : cfg.ARCH_X86_64 = true) (hflags : flags_usable cfg) :
    pagetable_requests cfg img =
      [code_request cfg img, data_request cfg img, rodata_request cfg img,
        bss_request cfg img, lower_request cfg img, upper_request cfg img] ∧
    (flag_set (code_request cfg img).access cfg.ARCH_MMU_FLAG_PERM_RO ∧
      flag_clear (code_request cfg img).access cfg.ARCH_MMU_FLAG_PERM_NO_EXECUTE) ∧
    (flag_set (rodata_request cfg img).access cfg.ARCH_MMU_FLAG_PERM_RO ∧
      flag_set (rodata_request cfg img).access cfg.ARCH_MMU_FLAG_PERM_NO_EXECUTE) ∧
    (flag_clear (data_request cfg img).access cfg.ARCH_MMU_FLAG_PERM_RO ∧
      flag_set (data_request cfg img).access cfg.ARCH_MMU_FLAG_PERM_NO_EXECUTE) ∧
    (flag_clear (bss_request cfg img).access cfg.ARCH_MMU_FLAG_PERM_RO ∧
      flag_set (bss_request cfg img).access cfg.ARCH_MMU_FLAG_PERM_NO_EXECUTE) ∧
    (flag_set (lower_request cfg img).access cfg.ARCH_MMU_FLAG_PERM_NO_EXECUTE ∧
      flag_set (lower_request cfg img).access cfg.ARCH_MMU_FLAG_NS) ∧
    (flag_set (upper_request cfg img).access cfg.ARCH_MMU_FLAG_PERM_NO_EXECUTE ∧
      flag_set (upper_request cfg img).access cfg.ARCH_MMU_FLAG_NS) ∧
    (¬ writable cfg (code_request cfg img) ∧ ¬ writable cfg (rodata_request cfg img)) ∧
    (¬ executable cfg (data_request cfg img) ∧ ¬ executable cfg (bss_request cfg img) ∧
      ¬ executable cfg (lower_request cfg img) ∧ ¬ executable cfg (upper_request cfg img)) := by
  obtain ⟨hro, hnx, hdisj⟩ := hflags
  have hdisj2 : cfg.ARCH_MMU_FLAG_PERM_NO_EXECUTE &&& cfg.ARCH_MMU_FLAG_PERM_RO = 0 := by
    rw [Nat.and_comm]; exact hdisj
  have hcode : (code_request cfg img).access = cfg.ARCH_MMU_FLAG_PERM_RO := rfl
  have hdata : (data_request cfg img).access = cfg.ARCH_MMU_FLAG_PERM_NO_EXECUTE := by
    simp [data_request, h64]
  have hrodata : (rodata_request cfg img).access =
      cfg.ARCH_MMU_FLAG_PERM_RO ||| cfg.ARCH_MMU_FLAG_PERM_NO_EXECUTE := by
    simp [rodata_request, h64]
  have hbss : (bss_request cfg img).access = cfg.ARCH_MMU_FLAG_PERM_NO_EXECUTE := by
    simp [bss_request, h64]
  have hlower : (lower_request cfg img).access =
      cfg.ARCH_MMU_FLAG_PERM_NO_EXECUTE ||| cfg.ARCH_MMU_FLAG_NS := rfl
  have hupper : (upper_request cfg img).access =
      cfg.ARCH_MMU_FLAG_PERM_NO_EXECUTE ||| cfg.ARCH_MMU_FLAG_NS := rfl
  unfold writable executable flag_set flag_clear
  rw [hcode, hdata, hrodata, hbss, hlower, hupper]
  simp only [or_and_self_left, or_and_self_right, Nat.and_self, hdisj, hdisj2]
  refine ⟨rfl, ⟨trivial, trivial⟩, ⟨trivial, trivial⟩, ⟨trivial, trivial⟩, ⟨trivial, trivial⟩,
    ⟨trivial, trivial⟩, ⟨trivial, trivial⟩, ⟨hro, hro⟩, ⟨hnx, hnx, hnx, hnx⟩⟩

/-- The x86-64 sample build has RO = 8 and NO_EXECUTE = 16. -/
theorem pagetable_least_privilege_witness :
    pagetable_requests sample_build sample_image =
      [code_request sample_build sample_image, data_request sample_build sample_image,
        rodata_request sample_build sample_image, bss_request sample_build sample_image,
        lower_request sample_build sample_image, upper_request sample_build sample_image] ∧
    (flag_set (code_request sample_build sample_image).access 8 ∧
      flag_clear (code_request sample_build sample_image).access 16) ∧
    (flag_set (rodata_request sample_build sample_image).access 8 ∧
      flag_set (rodata_request sample_build sample_image).access 16) ∧
    (flag_clear (data_request sample_build sample_image).access 8 ∧
      flag_set (data_request sample_build sample_image).access 16) ∧
    (flag_clear (bss_request sample_build sample_image).access 8 ∧
      flag_set (bss_request sample_build sample_image).access 16) ∧
    (flag_set (lower_request sample_build sample_image).access 16 ∧
      flag_set (lower_request sample_build sample_image).access 32) ∧
    (flag_set (upper_request sample_build sample_image).access 16 ∧
      flag_set (upper_request sample_build sample_image).access 32) ∧
    (¬ writable sample_build (code_request sample_build sample_image) ∧
      ¬ writable sample_build (rodata_request sample_build sample_image)) ∧
    (¬ executable sample_build (data_request sample_build sample_image) ∧
      ¬ executable sample_build (bss_request sample_build sample_image) ∧
      ¬ executable sample_build (lower_request sample_build sample_image) ∧
      ¬ executable sample_build (upper_request sample_build sample_image)) :=
  pagetable_least_privilege sample_build sample_image rfl
    ⟨by decide, by decide, by decide⟩

/-- The trace of `platform_init`, whether the run completes or stops. -/
theorem platform_init_trace (cfg : Build) (img : Image) (hw : Hw) (s : State) :
    (platform_init cfg img hw s).state.trace = s.trace ++ platform_init_events cfg img hw := by
  unfold platform_init platform_init_events events_after_bind prepare_secinfo_region smc_init
    check_sysenter platform_init_mmu_mappings platform_update_pagetable make_get_secinfo_vmcall
  generalize detect_vmm hw.sig_ebx hw.sig_ecx hw.sig_edx = d
  by_cases herr : hw.vmm_alloc_err = 0
  · by_cases h0 : d = (VMM_ID_EVMM : Int)
    · by_cases hs : is_sysenter_support hw.leaf1_eax hw.leaf1_edx = true
      · by_cases ha : cfg.ATTKB_HECI = true <;> by_cases hp : cfg.SPI_CONTROLLER = true <;>
          simp [herr, h0, hs, ha, hp, bind, Except.bind, Run.state, VMM_ID_EVMM]
      · by_cases ha : cfg.ATTKB_HECI = true <;>
          simp [herr, h0, hs, ha, bind, Except.bind, Run.state, VMM_ID_EVMM]
    · by_cases h1 : d = (VMM_ID_ACRN : Int)
      · by_cases hs : is_sysenter_support hw.leaf1_eax hw.leaf1_edx = true
        · by_cases ha : cfg.ATTKB_HECI = true <;> by_cases hp : cfg.SPI_CONTROLLER = true <;>
            simp [herr, h1, hs, ha, hp, bind, Except.bind, Run.state, VMM_ID_ACRN, VMM_ID_EVMM]
        · by_cases ha : cfg.ATTKB_HECI = true <;>
            simp [herr, h1, hs, ha, bind, Except.bind, Run.state, VMM_ID_ACRN, VMM_ID_EVMM]
      · simp [herr, h0, h1, bind, Except.bind, Run.state]
  · simp [herr, bind, Except.bind, Run.state]

theorem events_since_platform_init (cfg : Build) (img : Image) (hw : Hw) (s : State) :
    events_since s (platform_init cfg img hw s) = platform_init_events cfg img hw := by
  unfold events_since
  rw [platform_init_trace]
  simp

/-! ### C8 -/

/-- C8 (as amended): in every run of `platform_init` the get-secinfo hypercall
of `prepare_secinfo_region` comes first and the assignment of the hypercall
backend by `smc_init` comes after it.  Of hypercalls and backend assignments, a
run whose allocation fails has none; every other run has the hypercall on the
allocated region first, followed by exactly one assignment
(`make_smc_vmcall_evmm` or `make_smc_vmcall_acrn`) when a known hypervisor is
detected and by none otherwise. -/
theorem secinfo_hypercall_precedes_bind (cfg : Build) (img : Image) (hw : Hw) (s : State) :
    (events_since s (platform_init cfg img hw s)).filter is_hypercall_or_bind =
      if hw.vmm_alloc_err ≠ 0 then []
      else
        .make_get_secinfo_vmcall hw.vmm_alloc_vaddr ::
          (if detect_vmm hw.sig_ebx hw.sig_ecx hw.sig_edx = VMM_ID_EVMM then
            [.assign_make_smc_vmcall .make_smc_vmcall_evmm]
          else if detect_vmm hw.sig_ebx hw.sig_ecx hw.sig_edx = VMM_ID_ACRN then
            [.assign_make_smc_vmcall .make_smc_vmcall_acrn]
          else []) := by
  rw [events_since_platform_init]
  unfold platform_init_events events_after_bind pagetable_requests
  by_cases herr : hw.vmm_alloc_err = 0
  · by_cases h0 : detect_vmm hw.sig_ebx hw.sig_ecx hw.sig_edx = (VMM_ID_EVMM : Int)
    · by_cases hs : is_sysenter_support hw.leaf1_eax hw.leaf1_edx = true <;>
        by_cases ha : cfg.ATTKB_HECI = true <;> by_cases hp : cfg.SPI_CONTROLLER = true <;>
        simp [herr, h0, hs, ha, hp, List.filter, is_hypercall_or_bind]
    · by_cases h1 : detect_vmm hw.sig_ebx hw.sig_ecx hw.sig_edx = (VMM_ID_ACRN : Int)
      · by_cases hs : is_sysenter_support hw.leaf1_eax hw.leaf1_edx = true <;>
          by_cases ha : cfg.ATTKB_HECI = true <;> by_cases hp : cfg.SPI_CONTROLLER = true <;>
          simp [herr, h1, hs, ha, hp, List.filter, is_hypercall_or_bind, VMM_ID_ACRN, VMM_ID_EVMM]
      · simp [herr, h0, h1, List.filter, is_hypercall_or_bind]
  · simp [herr, List.filter, is_hypercall_or_bind]

/-- C8 (as stated) fails: in the run on the ACRN hardware from the boot state,
where `make_smc_vmcall` is not assigned, the run completes, the get-secinfo
hypercall is the second step and the assignment of the backend the fourth, so
the hypercall is issued while the backend is unbound. -/
theorem secinfo_hypercall_while_unbound :
    boot_state.make_smc_vmcall = none ∧
    (platform_init sample_build sample_image acrn_hw boot_state).halt = none ∧
    (platform_init sample_build sample_image acrn_hw boot_state).state.trace.take 4 =
      [.vmm_alloc 0x100 17 0 0x7000, .make_get_secinfo_vmcall 0x7000, .cpuid 0x40000000,
        .assign_make_smc_vmcall .make_smc_vmcall_acrn] ∧
    hypercalls_after_bind false
      (platform_init sample_build sample_image acrn_hw boot_state).state.trace = false := by
  decide

/-! ### C9 -/

/-- The arena of `heap_arena_init` starts at or after the reserved part. -/
theorem heap_arena_base_clear (cfg : Build) (__bss_end : Nat) (m0 : mmu_initial_mapping)
    (hfit : m0.phys + heap_rsvd cfg __bss_end m0 + PAGE_SIZE ≤ 2 ^ 64) :
    m0.phys + heap_rsvd cfg __bss_end m0 ≤ (heap_arena_init cfg __bss_end m0).base := by
  unfold heap_arena_init
  simp only
  generalize heap_rsvd cfg __bss_end m0 = rsvd at *
  unfold PAGE_ALIGN add64
  unfold PAGE_SIZE at *
  omega

/-- When `rsvd` is a multiple of the page size the arena ends where the kernel
mapping ends. -/
theorem heap_arena_end_aligned (cfg : Build) (__bss_end : Nat) (m0 : mmu_initial_mapping)
    (hphys : m0.phys % PAGE_SIZE = 0) (hsize : m0.size % PAGE_SIZE = 0)
    (hrsvd : heap_rsvd cfg __bss_end m0 ≤ m0.size)
    (hfit : m0.phys + m0.size + PAGE_SIZE ≤ 2 ^ 64)
    (hal : heap_rsvd cfg __bss_end m0 % PAGE_SIZE = 0) :
    (heap_arena_init cfg __bss_end m0).base + (heap_arena_init cfg __bss_end m0).size =
      m0.phys + m0.size := by
  unfold heap_arena_init
  simp only
  generalize heap_rsvd cfg __bss_end m0 = rsvd at *
  unfold PAGE_ALIGN add64 sub64
  unfold PAGE_SIZE at *
  omega

/-- When `rsvd` is not a multiple of the page size the arena ends one page
after the end of the kernel mapping: the size is rounded up although the base
was rounded up as well. -/
theorem heap_arena_end_unaligned (cfg : Build) (__bss_end : Nat) (m0 : mmu_initial_mapping)
    (hphys : m0.phys % PAGE_SIZE = 0) (hsize : m0.size % PAGE_SIZE = 0)
    (hrsvd : heap_rsvd cfg __bss_end m0 ≤ m0.size)
    (hfit : m0.phys + m0.size + PAGE_SIZE ≤ 2 ^ 64)
    (hal : heap_rsvd cfg __bss_end m0 % PAGE_SIZE ≠ 0) :
    (heap_arena_init cfg __bss_end m0).base + (heap_arena_init cfg __bss_end m0).size =
      m0.phys + m0.size + PAGE_SIZE := by
  unfold heap_arena_init
  simp only
  generalize heap_rsvd cfg __bss_end m0 = rsvd at *
  unfold PAGE_ALIGN add64 sub64
  unfold PAGE_SIZE at *
  omega

/-! ### C10 -/

/-- C10 fails on the code: with the image loaded at physical `0x100000`,
`_start = 0x40200000`, `__bss_end = 0x4020A008` and a load offset of `0x200000`,
`mmu_initial_mappings[0]` is page-aligned (`phys = 0x100000`, `size = 16 MB`)
and `rsvd = 0x40A008` does not exceed the mapping size, the arena base
`0x50B000` is clear of the reserved part, but `size = 0xBF6000` is rounded up
and the arena ends at `0x1101000`, one page after the end `0x1100000` of the
kernel mapping. -/
theorem heap_arena_overshoots_mapping :
    (platform_early_init sample_build 0x100000 0x40200000 0x4020A008).1 = sample_mapping ∧
    sample_mapping.phys % PAGE_SIZE = 0 ∧
    sample_mapping.size % PAGE_SIZE = 0 ∧
    heap_rsvd sample_build 0x4020A008 sample_mapping = 0x40A008 ∧
    heap_rsvd sample_build 0x4020A008 sample_mapping ≤ sample_mapping.size ∧
    (platform_early_init sample_build 0x100000 0x40200000 0x4020A008).2 =
      { base := 0x50B000, size := 0xBF6000 } ∧
    sample_mapping.phys + heap_rsvd sample_build 0x4020A008 sample_mapping ≤
      (heap_arena_init sample_build 0x4020A008 sample_mapping).base ∧
    sample_mapping.phys + sample_mapping.size = 0x1100000 ∧
    (heap_arena_init sample_build 0x4020A008 sample_mapping).base +
      (heap_arena_init sample_build 0x4020A008 sample_mapping).size = 0x1101000 ∧
    ¬ ((heap_arena_init sample_build 0x4020A008 sample_mapping).base +
        (heap_arena_init sample_build 0x4020A008 sample_mapping).size ≤
      sample_mapping.phys + sample_mapping.size) := by
  decide

end TrustySand
